import Mathlib

/-!
Shallow embedding of `src/addon/mod/assign/classes/base-submission-handler.ts`
from the moodleapp repository: the class `AddonModAssignBaseSubmissionHandler`,
the default (base) handler for assignment submission plugins.

Modelling conventions:
- The TypeScript `TranslateService` collaborator is modelled by its only used
  member, the total lookup function `instant : String → String` (the service
  echoes the key when no translation is registered).
- `undefined` results are `Option.none`; a possibly missing string field is
  `Option String`.  JavaScript truthiness of a string field (`if (plugin.name)`)
  is: present and non-empty.
- Promises are an inductive with `pending`, `resolved` and `rejected` states.
- The side-effecting hooks receive the caller-owned `pluginData` accumulator
  and an abstract storage-collaborator state explicitly, and return the
  (possibly updated) state; the source bodies are `// Nothing to do.`, so the
  embedding returns the state it was given.
- A uniform dispatcher `invoke` runs any hook on the handler state and returns
  an `Except`-wrapped outcome together with the post-call handler, so that
  totality (no raise) and statelessness are expressible.
-/

namespace MoodleAssign

/-- The translation collaborator: only `instant` is used by the handler. -/
structure TranslateService where
  instant : String → String

/-- Assignment record (opaque for this handler: no field is inspected). -/
structure AddonModAssignAssign where
  id : Nat
deriving DecidableEq, Repr

/-- Submission record (opaque for this handler: no field is inspected). -/
structure AddonModAssignSubmission where
  id : Nat
deriving DecidableEq, Repr

/-- Plugin descriptor: the handler reads only `type` and `name`.
`name` is `Option String` because the web-service field may be absent. -/
structure AddonModAssignPlugin where
  type : String
  name : Option String
deriving DecidableEq, Repr

/-- User-entered form data (an opaque keyed record). -/
abbrev InputData := List (String × String)

/-- Offline data stored for a submission (an opaque keyed record). -/
abbrev OfflineData := List (String × String)

/-- The caller-owned accumulator where hooks may store data to send. -/
abbrev PluginData := List (String × String)

/-- Abstract state of any storage collaborator a hook could touch. -/
abbrev Storage := List (String × String)

/-- A file descriptor as returned by `getPluginFiles`. -/
structure PluginFile where
  filename : String
  fileurl : String
deriving DecidableEq, Repr

/-- An Angular component reference (opaque). -/
abbrev Component := String

/-- A JavaScript promise: pending, resolved with a value, or rejected. -/
inductive Promise (α : Type) where
  | pending : Promise α
  | resolved : α → Promise α
  | rejected : String → Promise α
deriving DecidableEq, Repr

/-- The provider state: the injected translation collaborator plus the two
identity fields initialised in the class body. -/
structure AddonModAssignBaseSubmissionHandler where
  translate : TranslateService
  name : String
  type : String

/-- The constructor: stores the injected collaborator; the field initialisers
of the class body set `name` and `type`. -/
def mkBaseSubmissionHandler (translate : TranslateService) :
    AddonModAssignBaseSubmissionHandler :=
  { translate := translate
    name := "AddonModAssignBaseSubmissionHandler"
    type := "base" }

namespace AddonModAssignBaseSubmissionHandler

/-- `canEditOffline`: `return false;`. -/
def canEditOffline (_h : AddonModAssignBaseSubmissionHandler)
    (_assign : AddonModAssignAssign) (_submission : AddonModAssignSubmission)
    (_plugin : AddonModAssignPlugin) : Bool :=
  false

/-- `isEmpty`: `return true;`. -/
def isEmpty (_h : AddonModAssignBaseSubmissionHandler)
    (_assign : AddonModAssignAssign) (_plugin : AddonModAssignPlugin) : Bool :=
  true

/-- `clearTmpData`: body is `// Nothing to do.`; the storage state is
returned unchanged. -/
def clearTmpData (_h : AddonModAssignBaseSubmissionHandler)
    (_assign : AddonModAssignAssign) (_submission : AddonModAssignSubmission)
    (_plugin : AddonModAssignPlugin) (_inputData : InputData)
    (st : Storage) : Unit × Storage :=
  ((), st)

/-- `copySubmissionData`: body is `// Nothing to do.`; the accumulator and
storage are returned unchanged. -/
def copySubmissionData (_h : AddonModAssignBaseSubmissionHandler)
    (_assign : AddonModAssignAssign) (_plugin : AddonModAssignPlugin)
    (pluginData : PluginData) (_userId : Option Nat) (_siteId : Option String)
    (st : Storage) : Unit × PluginData × Storage :=
  ((), pluginData, st)

/-- `deleteOfflineData`: body is `// Nothing to do.`; storage unchanged. -/
def deleteOfflineData (_h : AddonModAssignBaseSubmissionHandler)
    (_assign : AddonModAssignAssign) (_submission : AddonModAssignSubmission)
    (_plugin : AddonModAssignPlugin) (_offlineData : OfflineData)
    (_siteId : Option String) (st : Storage) : Unit × Storage :=
  ((), st)

/-- `getComponent`: body is `// Nothing to do.`, so the result is
`undefined`. -/
def getComponent (_h : AddonModAssignBaseSubmissionHandler)
    (_plugin : AddonModAssignPlugin) (_edit : Option Bool) : Option Component :=
  none

/-- `getPluginFiles`: `return [];`. -/
def getPluginFiles (_h : AddonModAssignBaseSubmissionHandler)
    (_assign : AddonModAssignAssign) (_submission : AddonModAssignSubmission)
    (_plugin : AddonModAssignPlugin) (_siteId : Option String) :
    List PluginFile :=
  []

/-- `getPluginName`: looks up the translation for
`"addon.mod_assign_submission_" + plugin.type + ".pluginname"`; if the lookup
result differs from the key the translation is returned; otherwise the
descriptor name is returned when truthy; otherwise the function falls off the
end and the result is `undefined`. -/
def getPluginName (h : AddonModAssignBaseSubmissionHandler)
    (plugin : AddonModAssignPlugin) : Option String :=
  let translationId :=
    "addon.mod_assign_submission_" ++ plugin.type ++ ".pluginname"
  let translation := h.translate.instant translationId
  if translationId ≠ translation then
    some translation
  else
    match plugin.name with
    | some n => if n ≠ "" then some n else none
    | none => none

/-- `getSizeForCopy`: `return 0;`. -/
def getSizeForCopy (_h : AddonModAssignBaseSubmissionHandler)
    (_assign : AddonModAssignAssign) (_plugin : AddonModAssignPlugin) : Nat :=
  0

/-- `getSizeForEdit`: `return 0;`. -/
def getSizeForEdit (_h : AddonModAssignBaseSubmissionHandler)
    (_assign : AddonModAssignAssign) (_submission : AddonModAssignSubmission)
    (_plugin : AddonModAssignPlugin) (_inputData : InputData) : Nat :=
  0

/-- `hasDataChanged`: `return false;`. -/
def hasDataChanged (_h : AddonModAssignBaseSubmissionHandler)
    (_assign : AddonModAssignAssign) (_submission : AddonModAssignSubmission)
    (_plugin : AddonModAssignPlugin) (_inputData : InputData) : Bool :=
  false

/-- `isEnabled`: `return true;`. -/
def isEnabled (_h : AddonModAssignBaseSubmissionHandler) : Bool :=
  true

/-- `isEnabledForEdit`: `return false;`. -/
def isEnabledForEdit (_h : AddonModAssignBaseSubmissionHandler) : Bool :=
  false

/-- `prefetch`: `return Promise.resolve();` — an already-resolved unit
promise, touching no collaborator. -/
def prefetch (_h : AddonModAssignBaseSubmissionHandler)
    (_assign : AddonModAssignAssign) (_submission : AddonModAssignSubmission)
    (_plugin : AddonModAssignPlugin) (_siteId : Option String) :
    Promise Unit :=
  Promise.resolved ()

/-- `prepareSubmissionData`: body is `// Nothing to do.`; accumulator and
storage unchanged. -/
def prepareSubmissionData (_h : AddonModAssignBaseSubmissionHandler)
    (_assign : AddonModAssignAssign) (_submission : AddonModAssignSubmission)
    (_plugin : AddonModAssignPlugin) (_inputData : InputData)
    (pluginData : PluginData) (_offline : Option Bool) (_userId : Option Nat)
    (_siteId : Option String) (st : Storage) : Unit × PluginData × Storage :=
  ((), pluginData, st)

/-- `prepareSyncData`: body is `// Nothing to do.`; accumulator and
storage unchanged. -/
def prepareSyncData (_h : AddonModAssignBaseSubmissionHandler)
    (_assign : AddonModAssignAssign) (_submission : AddonModAssignSubmission)
    (_plugin : AddonModAssignPlugin) (_offlineData : OfflineData)
    (pluginData : PluginData) (_siteId : Option String) (st : Storage) :
    Unit × PluginData × Storage :=
  ((), pluginData, st)

end AddonModAssignBaseSubmissionHandler

/-- A call to one of the handler hooks, with its arguments. -/
inductive HookCall where
  | canEditOffline (a : AddonModAssignAssign) (s : AddonModAssignSubmission)
      (p : AddonModAssignPlugin)
  | isEmpty (a : AddonModAssignAssign) (p : AddonModAssignPlugin)
  | clearTmpData (a : AddonModAssignAssign) (s : AddonModAssignSubmission)
      (p : AddonModAssignPlugin) (input : InputData) (st : Storage)
  | copySubmissionData (a : AddonModAssignAssign) (p : AddonModAssignPlugin)
      (pd : PluginData) (userId : Option Nat) (siteId : Option String)
      (st : Storage)
  | deleteOfflineData (a : AddonModAssignAssign)
      (s : AddonModAssignSubmission) (p : AddonModAssignPlugin)
      (offline : OfflineData) (siteId : Option String) (st : Storage)
  | getComponent (p : AddonModAssignPlugin) (edit : Option Bool)
  | getPluginFiles (a : AddonModAssignAssign) (s : AddonModAssignSubmission)
      (p : AddonModAssignPlugin) (siteId : Option String)
  | getPluginName (p : AddonModAssignPlugin)
  | getSizeForCopy (a : AddonModAssignAssign) (p : AddonModAssignPlugin)
  | getSizeForEdit (a : AddonModAssignAssign) (s : AddonModAssignSubmission)
      (p : AddonModAssignPlugin) (input : InputData)
  | hasDataChanged (a : AddonModAssignAssign) (s : AddonModAssignSubmission)
      (p : AddonModAssignPlugin) (input : InputData)
  | isEnabled
  | isEnabledForEdit
  | prefetch (a : AddonModAssignAssign) (s : AddonModAssignSubmission)
      (p : AddonModAssignPlugin) (siteId : Option String)
  | prepareSubmissionData (a : AddonModAssignAssign)
      (s : AddonModAssignSubmission) (p : AddonModAssignPlugin)
      (input : InputData) (pd : PluginData) (offline : Option Bool)
      (userId : Option Nat) (siteId : Option String) (st : Storage)
  | prepareSyncData (a : AddonModAssignAssign) (s : AddonModAssignSubmission)
      (p : AddonModAssignPlugin) (offline : OfflineData) (pd : PluginData)
      (siteId : Option String) (st : Storage)

/-- The outcome of a hook call. -/
inductive HookOutput where
  | boolRes : Bool → HookOutput
  | natRes : Nat → HookOutput
  | nameRes : Option String → HookOutput
  | filesRes : List PluginFile → HookOutput
  | componentRes : Option Component → HookOutput
  | stateRes : Unit × Storage → HookOutput
  | accumRes : Unit × PluginData × Storage → HookOutput
  | promiseRes : Promise Unit → HookOutput
deriving DecidableEq

/-- A raised JavaScript error (none of the hooks ever produces one). -/
abbrev JsError := String

open AddonModAssignBaseSubmissionHandler in
/-- Uniform dispatcher: runs the named hook on the handler, returning the
`Except`-wrapped outcome together with the handler state after the call.  No
method body throws or assigns to a field, so every branch is `Except.ok` and
the handler is returned as received. -/
def invoke (h : AddonModAssignBaseSubmissionHandler) :
    HookCall → Except JsError HookOutput × AddonModAssignBaseSubmissionHandler
  | .canEditOffline a s p => (.ok (.boolRes (canEditOffline h a s p)), h)
  | .isEmpty a p => (.ok (.boolRes (isEmpty h a p)), h)
  | .clearTmpData a s p input st =>
      (.ok (.stateRes (clearTmpData h a s p input st)), h)
  | .copySubmissionData a p pd userId siteId st =>
      (.ok (.accumRes (copySubmissionData h a p pd userId siteId st)), h)
  | .deleteOfflineData a s p offline siteId st =>
      (.ok (.stateRes (deleteOfflineData h a s p offline siteId st)), h)
  | .getComponent p edit => (.ok (.componentRes (getComponent h p edit)), h)
  | .getPluginFiles a s p siteId =>
      (.ok (.filesRes (getPluginFiles h a s p siteId)), h)
  | .getPluginName p => (.ok (.nameRes (getPluginName h p)), h)
  | .getSizeForCopy a p => (.ok (.natRes (getSizeForCopy h a p)), h)
  | .getSizeForEdit a s p input =>
      (.ok (.natRes (getSizeForEdit h a s p input)), h)
  | .hasDataChanged a s p input =>
      (.ok (.boolRes (hasDataChanged h a s p input)), h)
  | .isEnabled => (.ok (.boolRes (isEnabled h)), h)
  | .isEnabledForEdit => (.ok (.boolRes (isEnabledForEdit h)), h)
  | .prefetch a s p siteId => (.ok (.promiseRes (prefetch h a s p siteId)), h)
  | .prepareSubmissionData a s p input pd offline userId siteId st =>
      (.ok (.accumRes
        (prepareSubmissionData h a s p input pd offline userId siteId st)), h)
  | .prepareSyncData a s p offline pd siteId st =>
      (.ok (.accumRes (prepareSyncData h a s p offline pd siteId st)), h)

/-- A translation service with no registered keys: every lookup echoes. -/
def trEcho : TranslateService := { instant := fun s => s }

/-- A translation service that knows the key for the `file` plugin type. -/
def trFile : TranslateService :=
  { instant := fun s =>
      if s = "addon.mod_assign_submission_file.pluginname" then
        "File submissions"
      else s }

open AddonModAssignBaseSubmissionHandler

/-- C1: for every plugin descriptor, `getPluginName` returns the translation
result when it differs from the key
`"addon.mod_assign_submission_" ++ plugin.type ++ ".pluginname"`; when the
lookup echoes the key, it returns the descriptor name when one is present
(truthy); and when the descriptor also has no (truthy) name it returns
`undefined`. -/
theorem getPluginName_spec (tr : TranslateService)
    (plugin : AddonModAssignPlugin) :
    (tr.instant ("addon.mod_assign_submission_" ++ plugin.type ++
        ".pluginname") ≠
      "addon.mod_assign_submission_" ++ plugin.type ++ ".pluginname" →
      getPluginName (mkBaseSubmissionHandler tr) plugin =
        some (tr.instant ("addon.mod_assign_submission_" ++ plugin.type ++
          ".pluginname"))) ∧
    (tr.instant ("addon.mod_assign_submission_" ++ plugin.type ++
        ".pluginname") =
      "addon.mod_assign_submission_" ++ plugin.type ++ ".pluginname" →
      ∀ n : String, plugin.name = some n → n ≠ "" →
        getPluginName (mkBaseSubmissionHandler tr) plugin = some n) ∧
    (tr.instant ("addon.mod_assign_submission_" ++ plugin.type ++
        ".pluginname") =
      "addon.mod_assign_submission_" ++ plugin.type ++ ".pluginname" →
      (∀ n : String, plugin.name = some n → n = "") →
      getPluginName (mkBaseSubmissionHandler tr) plugin = none) := by
  refine ⟨fun hne => ?_, fun heq n hn hne => ?_, fun heq hall => ?_⟩
  · simp only [getPluginName, mkBaseSubmissionHandler]
    rw [if_pos (fun hc => hne hc.symm)]
  · simp only [getPluginName, mkBaseSubmissionHandler]
    rw [if_neg (fun hc => hc heq.symm), hn]
    show (if n ≠ "" then some n else none) = some n
    exact if_pos hne
  · simp only [getPluginName, mkBaseSubmissionHandler]
    rw [if_neg (fun hc => hc heq.symm)]
    cases hn : plugin.name with
    | none => rfl
    | some n =>
        show (if n ≠ "" then some n else none) = none
        rw [if_neg (fun hne => hne (hall n hn))]

/-- C1 witness: with no registered translation and descriptor name
`"Custom Plugin"`, the result is `"Custom Plugin"`; with a registered
translation for the `file` type the translation is returned; with neither a
translation nor a name the result is `undefined`. -/
theorem getPluginName_spec_witness :
    getPluginName (mkBaseSubmissionHandler trEcho)
        { type := "custom", name := some "Custom Plugin" } =
      some "Custom Plugin" ∧
    getPluginName (mkBaseSubmissionHandler trFile)
        { type := "file", name := some "File WS name" } =
      some "File submissions" ∧
    getPluginName (mkBaseSubmissionHandler trEcho)
        { type := "custom", name := none } = none := by
  refine ⟨?_, ?_, ?_⟩
  · exact (getPluginName_spec trEcho
      { type := "custom", name := some "Custom Plugin" }).2.1 rfl
      "Custom Plugin" rfl (by decide)
  · have h := (getPluginName_spec trFile
      { type := "file", name := some "File WS name" }).1 (by decide)
    rw [h]
    rfl
  · exact (getPluginName_spec trEcho
      { type := "custom", name := none }).2.2 rfl
      (fun n hn => by simp at hn)

/-- C2: every boolean-returning default hook completes successfully with its
documented constant for all well-formed inputs: `canEditOffline` is `false`,
`isEmpty` is `true`, `hasDataChanged` is `false`, `isEnabled` is `true`,
`isEnabledForEdit` is `false`. -/
theorem boolean_hooks_default_constants
    (h : AddonModAssignBaseSubmissionHandler) (a : AddonModAssignAssign)
    (s : AddonModAssignSubmission) (p : AddonModAssignPlugin)
    (input : InputData) :
    (invoke h (.canEditOffline a s p)).1 = .ok (.boolRes false) ∧
    (invoke h (.isEmpty a p)).1 = .ok (.boolRes true) ∧
    (invoke h (.hasDataChanged a s p input)).1 = .ok (.boolRes false) ∧
    (invoke h .isEnabled).1 = .ok (.boolRes true) ∧
    (invoke h .isEnabledForEdit).1 = .ok (.boolRes false) :=
  ⟨rfl, rfl, rfl, rfl, rfl⟩

/-- C3: each default side-effecting hook (`clearTmpData`,
`copySubmissionData`, `deleteOfflineData`, `prepareSubmissionData`,
`prepareSyncData`) returns the caller-owned accumulator and the storage
collaborator exactly as received. -/
theorem side_effect_hooks_frame (h : AddonModAssignBaseSubmissionHandler)
    (a : AddonModAssignAssign) (s : AddonModAssignSubmission)
    (p : AddonModAssignPlugin) (input : InputData) (offline : OfflineData)
    (pd : PluginData) (userId : Option Nat) (siteId : Option String)
    (ofl : Option Bool) (st : Storage) :
    clearTmpData h a s p input st = ((), st) ∧
    copySubmissionData h a p pd userId siteId st = ((), pd, st) ∧
    deleteOfflineData h a s p offline siteId st = ((), st) ∧
    prepareSubmissionData h a s p input pd ofl userId siteId st =
      ((), pd, st) ∧
    prepareSyncData h a s p offline pd siteId st = ((), pd, st) :=
  ⟨rfl, rfl, rfl, rfl, rfl⟩

/-- C4: every hook is total — for every handler (any translation collaborator
included) and every well-formed call, the invocation completes successfully
(`Except.ok`), never raising. -/
theorem all_hooks_total (h : AddonModAssignBaseSubmissionHandler)
    (c : HookCall) : ((invoke h c).1).isOk = true := by
  cases c <;> rfl

/-- C5: the default `getSizeForCopy` and `getSizeForEdit` both return exactly
`0` for all well-formed inputs. -/
theorem size_hooks_zero (h : AddonModAssignBaseSubmissionHandler)
    (a : AddonModAssignAssign) (s : AddonModAssignSubmission)
    (p : AddonModAssignPlugin) (input : InputData) :
    getSizeForCopy h a p = 0 ∧ getSizeForEdit h a s p input = 0 :=
  ⟨rfl, rfl⟩

/-- C6: the default `getPluginFiles` returns the empty list for all
well-formed inputs. -/
theorem getPluginFiles_empty (h : AddonModAssignBaseSubmissionHandler)
    (a : AddonModAssignAssign) (s : AddonModAssignSubmission)
    (p : AddonModAssignPlugin) (siteId : Option String) :
    getPluginFiles h a s p siteId = [] :=
  rfl

/-- C7: the default `prefetch` returns an already-resolved unit promise, and
its result does not depend on the translation collaborator (no collaborator
is invoked). -/
theorem prefetch_resolved (h : AddonModAssignBaseSubmissionHandler)
    (a : AddonModAssignAssign) (s : AddonModAssignSubmission)
    (p : AddonModAssignPlugin) (siteId : Option String) :
    prefetch h a s p siteId = Promise.resolved () ∧
    ∀ tr₁ tr₂ : TranslateService,
      prefetch (mkBaseSubmissionHandler tr₁) a s p siteId =
        prefetch (mkBaseSubmissionHandler tr₂) a s p siteId :=
  ⟨rfl, fun _ _ => rfl⟩

/-- C8: every hook is deterministic and stateless: invoking the same call
twice in sequence produces the same outcome both times, and the handler state
after the calls is the handler state before them. -/
theorem hooks_stateless (h : AddonModAssignBaseSubmissionHandler)
    (c : HookCall) :
    (invoke (invoke h c).2 c).1 = (invoke h c).1 ∧
    (invoke (invoke h c).2 c).2 = h := by
  cases c <;> exact ⟨rfl, rfl⟩

/-- C9: when the translation lookup echoes the key and the descriptor name is
present but equal to the empty string, `getPluginName` returns `undefined`
rather than the empty string. -/
theorem getPluginName_empty_name (tr : TranslateService)
    (plugin : AddonModAssignPlugin)
    (hecho : tr.instant ("addon.mod_assign_submission_" ++ plugin.type ++
        ".pluginname") =
      "addon.mod_assign_submission_" ++ plugin.type ++ ".pluginname")
    (hname : plugin.name = some "") :
    getPluginName (mkBaseSubmissionHandler tr) plugin = none := by
  simp only [getPluginName, mkBaseSubmissionHandler]
  rw [if_neg (fun hc => hc hecho.symm), hname]
  rfl

/-- C9 witness: an echoing collaborator and the empty-string name on a
concrete descriptor give `undefined`. -/
theorem getPluginName_empty_name_witness :
    getPluginName (mkBaseSubmissionHandler trEcho)
      { type := "custom", name := some "" } = none :=
  getPluginName_empty_name trEcho { type := "custom", name := some "" }
    rfl rfl

/-- C10: the constructed provider has `name` equal to
`"AddonModAssignBaseSubmissionHandler"` and `type` equal to `"base"`, and no
hook invocation changes either field. -/
theorem handler_identity_constant (tr : TranslateService) :
    (mkBaseSubmissionHandler tr).name =
      "AddonModAssignBaseSubmissionHandler" ∧
    (mkBaseSubmissionHandler tr).type = "base" ∧
    ∀ c : HookCall,
      ((invoke (mkBaseSubmissionHandler tr) c).2).name =
        "AddonModAssignBaseSubmissionHandler" ∧
      ((invoke (mkBaseSubmissionHandler tr) c).2).type = "base" := by
  refine ⟨rfl, rfl, fun c => ?_⟩
  cases c <;> exact ⟨rfl, rfl⟩

end MoodleAssign
